import Mathlib

/-
Verification of the cryptoplus x509 store_context wrapper
(src/include/cryptoplus/x509/store_context.hpp).

The wrapper layer is embedded shallowly: pointers are naturals with 0 as
NULL, C++ exceptions become Except results, and the native OpenSSL layer
(X509_STORE_CTX_new / init / trusted_stack / cleanup) is an explicit
environment modelled from the specification's description of its observable
behavior. The pointer_wrapper base class and the error helper live in
headers outside the excerpt, so those two pieces are modelled from the
spec's words; everything in store_context.hpp itself is translated directly
from the source.
-/

/-- A raw native pointer value; 0 models the NULL pointer. -/
abbrev pointer := Nat

/-- The two deleters a pointer_wrapper can store: the real native destroy
operation (owning mode) or the no-op null_deleter (borrowing mode). -/
inductive deleter_type where
  | deleter
  | null_deleter
deriving DecidableEq, Repr

/-- Modelled from the spec: the pointer_wrapper base class
(include/cryptoplus/pointer_wrapper.hpp, declared but not part of the
excerpt). A wrapper instance holds a handle (may be null) and a deleter,
the deleter being invoked at end of life only in owning mode. -/
structure pointer_wrapper where
  ptr : pointer
  del : deleter_type
deriving DecidableEq, Repr

/-- raw(): returns the underlying handle unconditionally, even if null;
no side effect. Modelled from the spec for the pointer_wrapper base. -/
def pointer_wrapper.raw (w : pointer_wrapper) : pointer := w.ptr

/-- Modelled from the spec: destruction invokes the stored deleter on the
handle only in owning mode; the null_deleter is a no-op. The returned value
is the pointer passed to the native destroy operation, if that operation is
invoked at all (the instrumented-deleter view of destruction). -/
def pointer_wrapper.destroy_calls (w : pointer_wrapper) : Option pointer :=
  match w.del with
  | deleter_type.deleter => some w.ptr
  | deleter_type.null_deleter => none

/-- store_context has the same representation as its pointer_wrapper base
(class store_context : public pointer_wrapper, lines 70-127). -/
abbrev store_context := pointer_wrapper

/-- Modelled from the spec: x509::store is a thin pointer wrapper
(store.hpp, not part of the excerpt); store_context only uses its raw(). -/
abbrev store := pointer_wrapper

/-- Modelled from the spec: x509::certificate is a thin pointer wrapper
(certificate.hpp, not part of the excerpt); only its raw() is used here. -/
abbrev certificate := pointer_wrapper

/-- The structured errors of the spec's taxonomy: AllocationError for a
resource-creation call that returned null, InitializationError for a setup
call that reported failure. -/
inductive crypto_error where
  | AllocationError
  | InitializationError
deriving DecidableEq, Repr

/-- Modelled from the spec: error::throw_error_if_not
(error/cryptographic_exception.hpp, not part of the excerpt). When the
condition is false it raises the corresponding structured error carrying
context from the native error-reporting mechanism (passed here as e);
when the condition is true it returns normally. -/
def error.throw_error_if_not (e : crypto_error) (cond : Bool) :
    Except crypto_error Unit :=
  if cond then Except.ok () else Except.error e

/-- The native verification state of one context, per the spec's state
machine: empty, then initialized after a successful initialization, then
empty and reusable again after cleanup. -/
inductive ctx_state where
  | empty
  | initialized
deriving DecidableEq, Repr

/-- Modelled from the spec: the observable state of the native library.
`accepts` says which (store, certificate, chain) raw-argument triples the
native initialization call accepts; `state` gives each context pointer its
native verification state; `trusted` records the trusted stack installed on
each context, if any. -/
structure native_env where
  accepts : pointer → pointer → pointer → Bool
  state : pointer → ctx_state
  trusted : pointer → Option pointer

/-- Modelled from the spec: X509_STORE_CTX_init returns nonzero (success)
exactly when the native layer accepts the arguments, and on success marks
the context initialized; on failure it reports 0 and changes nothing. -/
def X509_STORE_CTX_init (env : native_env) (ctx s cert chain : pointer) :
    Int × native_env :=
  if env.accepts s cert chain then
    (1, { env with
          state := fun p => if p = ctx then ctx_state.initialized else env.state p })
  else
    (0, env)

/-- Modelled from the spec: X509_STORE_CTX_trusted_stack installs an
explicit trusted set on the context; the native call returns no value and
has no failure-reporting channel. -/
def X509_STORE_CTX_trusted_stack (env : native_env) (ctx certs : pointer) :
    native_env :=
  { env with
    trusted := fun p => if p = ctx then some certs else env.trusted p }

/-- Modelled from the spec: X509_STORE_CTX_cleanup resets the context's
internal verification state so initialization may be invoked again; no
declared failure path. -/
def X509_STORE_CTX_cleanup (env : native_env) (ctx : pointer) : native_env :=
  { env with
    state := fun p => if p = ctx then ctx_state.empty else env.state p }

/-- store_context::take_ownership, lines 153-158: raises via
throw_error_if_not when the pointer is null, otherwise builds the wrapper
with the real deleter. -/
def store_context.take_ownership (_ptr : pointer) :
    Except crypto_error store_context :=
  match error.throw_error_if_not crypto_error.AllocationError (decide (_ptr ≠ 0)) with
  | Except.error e => Except.error e
  | Except.ok _ => Except.ok { ptr := _ptr, del := deleter_type.deleter }

/-- store_context::create, lines 145-152: calls X509_STORE_CTX_new (its
result is the argument here), raises via throw_error_if_not when the result
is null, then delegates to take_ownership. -/
def store_context.create (X509_STORE_CTX_new_result : pointer) :
    Except crypto_error store_context :=
  let _ptr := X509_STORE_CTX_new_result
  match error.throw_error_if_not crypto_error.AllocationError (decide (_ptr ≠ 0)) with
  | Except.error e => Except.error e
  | Except.ok _ => store_context.take_ownership _ptr

/-- store_context::store_context(), lines 159-161: the default constructor
defers to the pointer_wrapper default state, modelled from the spec's
Construct (empty): handle = null, deleter = no-op. -/
def store_context.empty_ctx : store_context :=
  { ptr := 0, del := deleter_type.null_deleter }

/-- store_context::store_context(pointer), lines 162-164: the borrowing
constructor forwards the pointer together with null_deleter to the
pointer_wrapper constructor; it performs no null check and cannot fail. -/
def store_context.borrow (_ptr : pointer) : store_context :=
  { ptr := _ptr, del := deleter_type.null_deleter }

/-- store_context::initialize, lines 165-168: forwards raw(), _store.raw(),
cert.raw() and chain to X509_STORE_CTX_init and raises via
throw_error_if_not when that call returns 0. The triple is (outcome,
wrapper after the call, native environment after the call); the method body
assigns no member, so the wrapper comes back unchanged. -/
def store_context.initialize (env : native_env) (ctx : store_context)
    (_store : store) (cert : certificate) (chain : pointer) :
    Except crypto_error Unit × store_context × native_env :=
  let r := X509_STORE_CTX_init env (pointer_wrapper.raw ctx)
    (pointer_wrapper.raw _store) (pointer_wrapper.raw cert) chain
  (error.throw_error_if_not crypto_error.InitializationError (decide (r.1 ≠ 0)),
    ctx, r.2)

/-- store_context::set_trusted_certificates, lines 169-172: forwards raw()
and certs to X509_STORE_CTX_trusted_stack; the native call is void-returning
and the method checks nothing, so the outcome is always normal return. -/
def store_context.set_trusted_certificates (env : native_env)
    (ctx : store_context) (certs : pointer) :
    Except crypto_error Unit × store_context × native_env :=
  (Except.ok (), ctx, X509_STORE_CTX_trusted_stack env (pointer_wrapper.raw ctx) certs)

/-- store_context::cleanup, lines 173-176: forwards raw() to
X509_STORE_CTX_cleanup; void-returning, nothing checked, normal return. -/
def store_context.cleanup (env : native_env) (ctx : store_context) :
    Except crypto_error Unit × store_context × native_env :=
  (Except.ok (), ctx, X509_STORE_CTX_cleanup env (pointer_wrapper.raw ctx))

/-- operator==, lines 180-183: true iff the raw pointers coincide. -/
def store_context_eq (lhs rhs : store_context) : Bool :=
  pointer_wrapper.raw lhs == pointer_wrapper.raw rhs

/-- operator!=, lines 184-187: true iff the raw pointers differ. -/
def store_context_ne (lhs rhs : store_context) : Bool :=
  pointer_wrapper.raw lhs != pointer_wrapper.raw rhs

/-- A concrete native environment used by witnesses: every argument triple
is accepted, every context starts empty, no trusted stack installed. -/
def witness_env : native_env :=
  { accepts := fun _ _ _ => true
    state := fun _ => ctx_state.empty
    trusted := fun _ => none }

/-- A concrete native environment whose initialization call rejects every
argument triple. -/
def witness_env_reject : native_env :=
  { accepts := fun _ _ _ => false
    state := fun _ => ctx_state.empty
    trusted := fun _ => none }

/-- A concrete owning store_context over the non-null handle 1. -/
def witness_ctx : store_context := { ptr := 1, del := deleter_type.deleter }

/-- A concrete store argument over handle 2. -/
def witness_store : store := { ptr := 2, del := deleter_type.null_deleter }

/-- A concrete certificate argument over handle 3. -/
def witness_cert : certificate := { ptr := 3, del := deleter_type.null_deleter }

/-- C1: for both owning constructions, create and take_ownership, a null
input handle yields AllocationError and no wrapper instance is produced. -/
theorem claim_C1_owning_null_yields_allocation_error :
    store_context.create 0 = Except.error crypto_error.AllocationError ∧
    store_context.take_ownership 0 = Except.error crypto_error.AllocationError :=
  ⟨rfl, rfl⟩

/-- C2: on a store_context with a non-null handle, for every store,
certificate and chain, the initialization method raises InitializationError
exactly when the native initialization call reports 0, and returns normally
whenever the native call reports success. -/
theorem claim_C2_init_error_iff_native_failure (env : native_env)
    (ctx : store_context) (h : pointer_wrapper.raw ctx ≠ 0)
    (s : store) (c : certificate) (chain : pointer) :
    (( store_context.initialize env ctx s c chain).1 =
        Except.error crypto_error.InitializationError ↔
      (X509_STORE_CTX_init env (pointer_wrapper.raw ctx) (pointer_wrapper.raw s)
        (pointer_wrapper.raw c) chain).1 = 0) ∧
    ((X509_STORE_CTX_init env (pointer_wrapper.raw ctx) (pointer_wrapper.raw s)
        (pointer_wrapper.raw c) chain).1 ≠ 0 →
      ( store_context.initialize env ctx s c chain).1 = Except.ok ()) := by
  unfold store_context.initialize X509_STORE_CTX_init error.throw_error_if_not
  by_cases ha : env.accepts (pointer_wrapper.raw s) (pointer_wrapper.raw c) chain
  · simp [ha]
  · simp [ha]

/-- C2 witness at the concrete accepting environment and handle 1. -/
theorem claim_C2_witness :
    pointer_wrapper.raw witness_ctx ≠ 0 ∧
    ((( store_context.initialize witness_env witness_ctx witness_store
          witness_cert 0).1 = Except.error crypto_error.InitializationError ↔
      (X509_STORE_CTX_init witness_env (pointer_wrapper.raw witness_ctx)
        (pointer_wrapper.raw witness_store) (pointer_wrapper.raw witness_cert)
        0).1 = 0) ∧
    ((X509_STORE_CTX_init witness_env (pointer_wrapper.raw witness_ctx)
        (pointer_wrapper.raw witness_store) (pointer_wrapper.raw witness_cert)
        0).1 ≠ 0 →
      ( store_context.initialize witness_env witness_ctx witness_store
          witness_cert 0).1 = Except.ok ())) :=
  ⟨by decide, claim_C2_init_error_iff_native_failure witness_env witness_ctx
    (by decide) witness_store witness_cert 0⟩

/-- C3: the borrowing constructor accepts any pointer, null included,
without raising (it is a total function into store_context, not into
Except), stores the no-op deleter, and destruction of the wrapper it builds
never invokes the native destroy operation. -/
theorem claim_C3_borrow_total_noop_deleter (p : pointer) :
    pointer_wrapper.raw (store_context.borrow p) = p ∧
    (store_context.borrow p).del = deleter_type.null_deleter ∧
    pointer_wrapper.destroy_calls (store_context.borrow p) = none :=
  ⟨rfl, rfl, rfl⟩

/-- C4: operator== holds exactly when the raw handles coincide and
operator!= holds exactly when they differ, whatever the deleters. -/
theorem claim_C4_equality_is_raw_identity (lhs rhs : store_context) :
    (store_context_eq lhs rhs = true ↔
      pointer_wrapper.raw lhs = pointer_wrapper.raw rhs) ∧
    (store_context_ne lhs rhs = true ↔
      pointer_wrapper.raw lhs ≠ pointer_wrapper.raw rhs) := by
  constructor
  · simp [store_context_eq]
  · simp [store_context_ne]

/-- C5: on a context with a non-null handle, with identical inputs that the
native layer accepts, the sequence initialization, cleanup, initialization
again returns normally at every step; the native environment is threaded
through the sequence. -/
theorem claim_C5_reinit_after_cleanup (env : native_env) (ctx : store_context)
    (s : store) (c : certificate) (chain : pointer)
    (hptr : pointer_wrapper.raw ctx ≠ 0)
    (hvalid : env.accepts (pointer_wrapper.raw s) (pointer_wrapper.raw c)
      chain = true) :
    ( store_context.initialize env ctx s c chain).1 = Except.ok () ∧
    ( store_context.cleanup
        ( store_context.initialize env ctx s c chain).2.2 ctx).1 =
      Except.ok () ∧
    ( store_context.initialize
        ( store_context.cleanup
          ( store_context.initialize env ctx s c chain).2.2 ctx).2.2
        ctx s c chain).1 = Except.ok () := by
  unfold store_context.initialize store_context.cleanup X509_STORE_CTX_init
    X509_STORE_CTX_cleanup error.throw_error_if_not
  simp [hvalid]

/-- C5 witness: the accepting environment, handle 1, empty chain. -/
theorem claim_C5_witness :
    pointer_wrapper.raw witness_ctx ≠ 0 ∧
    witness_env.accepts (pointer_wrapper.raw witness_store)
      (pointer_wrapper.raw witness_cert) 0 = true ∧
    (( store_context.initialize witness_env witness_ctx witness_store
        witness_cert 0).1 = Except.ok () ∧
    ( store_context.cleanup
        ( store_context.initialize witness_env witness_ctx witness_store
          witness_cert 0).2.2 witness_ctx).1 = Except.ok () ∧
    ( store_context.initialize
        ( store_context.cleanup
          ( store_context.initialize witness_env witness_ctx witness_store
            witness_cert 0).2.2 witness_ctx).2.2
        witness_ctx witness_store witness_cert 0).1 = Except.ok ()) :=
  ⟨by decide, by decide, claim_C5_reinit_after_cleanup witness_env witness_ctx
    witness_store witness_cert 0 (by decide) (by decide)⟩

/-- C6: a context produced by create has the non-null handle create was
given; when the native layer rejects the store arguments, initialization
raises InitializationError and hands back the wrapper unchanged, its handle
still the same non-null pointer. -/
theorem claim_C6_failed_init_preserves_handle (fresh : pointer)
    (ctx : store_context) (hc : store_context.create fresh = Except.ok ctx)
    (env : native_env) (s : store) (c : certificate) (chain : pointer)
    (hrej : env.accepts (pointer_wrapper.raw s) (pointer_wrapper.raw c)
      chain = false) :
    ( store_context.initialize env ctx s c chain).1 =
      Except.error crypto_error.InitializationError ∧
    ( store_context.initialize env ctx s c chain).2.1 = ctx ∧
    pointer_wrapper.raw ctx = fresh ∧ fresh ≠ 0 := by
  have hfresh : fresh ≠ 0 ∧ ctx = { ptr := fresh, del := deleter_type.deleter } := by
    by_cases h0 : fresh = 0
    · subst h0
      simp [store_context.create, store_context.take_ownership,
        error.throw_error_if_not] at hc
    · refine ⟨h0, ?_⟩
      simp [store_context.create, store_context.take_ownership,
        error.throw_error_if_not, h0] at hc
      exact hc.symm
  obtain ⟨h0, hctx⟩ := hfresh
  subst hctx
  simp only [ pointer_wrapper.raw] at hrej
  unfold store_context.initialize X509_STORE_CTX_init error.throw_error_if_not
  simp [hrej, pointer_wrapper.raw, h0]

/-- C6 witness: create over handle 1, then the rejecting environment. -/
theorem claim_C6_witness :
    store_context.create 1 = Except.ok witness_ctx ∧
    witness_env_reject.accepts (pointer_wrapper.raw witness_store)
      (pointer_wrapper.raw witness_cert) 0 = false ∧
    (( store_context.initialize witness_env_reject witness_ctx witness_store
        witness_cert 0).1 = Except.error crypto_error.InitializationError ∧
    ( store_context.initialize witness_env_reject witness_ctx witness_store
        witness_cert 0).2.1 = witness_ctx ∧
    pointer_wrapper.raw witness_ctx = 1 ∧ (1 : pointer) ≠ 0) :=
  ⟨by rfl, by decide, claim_C6_failed_init_preserves_handle 1 witness_ctx
    (by rfl) witness_env_reject witness_store witness_cert 0 (by decide)⟩

/-- C7: on a context with a non-null handle, set_trusted_certificates
returns normally for every certificate-stack argument: there is no
failure-reporting path at this layer. -/
theorem claim_C7_set_trusted_never_raises (env : native_env)
    (ctx : store_context) (h : pointer_wrapper.raw ctx ≠ 0)
    (certs : pointer) :
    ( store_context.set_trusted_certificates env ctx certs).1 =
      Except.ok () := rfl

/-- C7 witness at the concrete environment, handle 1, stack 7. -/
theorem claim_C7_witness :
    pointer_wrapper.raw witness_ctx ≠ 0 ∧
    ( store_context.set_trusted_certificates witness_env witness_ctx 7).1 =
      Except.ok () :=
  ⟨by decide, claim_C7_set_trusted_never_raises witness_env witness_ctx
    (by decide) 7⟩

/-- C8: the default-constructed (empty) store_context answers raw-handle
access with the null pointer; raw is a total pure function, so the access
raises nothing and has no side effect. -/
theorem claim_C8_default_ctx_raw_null :
    pointer_wrapper.raw store_context.empty_ctx = 0 :=
  rfl

/-- C9: for a non-null pointer, take_ownership, and create applied to that
fresh allocation, both produce the wrapper whose raw handle is that pointer
and whose stored deleter is the real destroy operation, not the no-op. -/
theorem claim_C9_owning_stores_real_deleter (p : pointer) (h : p ≠ 0) :
    store_context.take_ownership p =
      Except.ok { ptr := p, del := deleter_type.deleter } ∧
    store_context.create p =
      Except.ok { ptr := p, del := deleter_type.deleter } := by
  unfold store_context.create store_context.take_ownership
    error.throw_error_if_not
  simp [h]

/-- C9 witness at the non-null pointer 1. -/
theorem claim_C9_witness :
    (1 : pointer) ≠ 0 ∧
    (store_context.take_ownership 1 =
      Except.ok { ptr := 1, del := deleter_type.deleter } ∧
    store_context.create 1 =
      Except.ok { ptr := 1, del := deleter_type.deleter }) :=
  ⟨by decide, claim_C9_owning_stores_real_deleter 1 (by decide)⟩

/-- C10: initialization, set_trusted_certificates and cleanup hand the
wrapper back with its stored handle and deleter untouched, and their whole
effect is the corresponding native call applied to the raw handle. -/
theorem claim_C10_ops_preserve_wrapper_fields (env : native_env)
    (ctx : store_context) (s : store) (c : certificate)
    (chain certs : pointer) :
    ( store_context.initialize env ctx s c chain).2.1 = ctx ∧
    ( store_context.set_trusted_certificates env ctx certs).2.1 = ctx ∧
    ( store_context.cleanup env ctx).2.1 = ctx ∧
    ( store_context.initialize env ctx s c chain).2.2 =
      (X509_STORE_CTX_init env (pointer_wrapper.raw ctx)
        (pointer_wrapper.raw s) (pointer_wrapper.raw c) chain).2 ∧
    ( store_context.set_trusted_certificates env ctx certs).2.2 =
      X509_STORE_CTX_trusted_stack env (pointer_wrapper.raw ctx) certs ∧
    ( store_context.cleanup env ctx).2.2 =
      X509_STORE_CTX_cleanup env (pointer_wrapper.raw ctx) :=
  ⟨rfl, rfl, rfl, rfl, rfl, rfl⟩
